import Mathlib

/-
  Verification of the resume-analysis service in `main.py`.

  The embedding models the `/analyze` Flask handler and its helpers
  (`extract_text_from_pdf`, `parse_resume`, `parse_job_description`,
  `get_final_json_analysis`).  External libraries are modelled through
  their contracts:
  - the genai client (`client.models.generate_content`) is a `Backend`
    value: a function from generation mode and prompt to either a text
    response or a raised exception (`Except.error msg`);
  - PyPDF2 is modelled by what opening a stored file yields: failure to
    open/parse, or a list of per-page outcomes of `page.extract_text()`
    (a string, `None`, or a raised exception);
  - `json.loads` is a parameter of the environment (a function from
    strings to parsed JSON or a raised `JSONDecodeError`), and
    the output of `json.dumps` on the canned dict is given as the literal
    string it deterministically produces;
  - the filesystem is a map from paths to stored files, threaded through
    the handler explicitly; `resume_file.save` may raise, which is an
    environment parameter.
  Effects are explicit: the handler returns the HTTP status, the body,
  the final filesystem, and the list of generate calls it issued.
-/

set_option maxRecDepth 8000

namespace ATS

/-- JSON values as produced by the Python `json` module (numbers restricted
to integers, which is all that the schema of this service uses). -/
inductive Json where
  | null : Json
  | bool : Bool → Json
  | num : Int → Json
  | str : String → Json
  | arr : List Json → Json
  | obj : List (String × Json) → Json

/-- Field lookup in a JSON object (first binding wins). -/
def Json.getField : Json → String → Option Json
  | .obj fs, k => fs.lookup k
  | _, _ => none

def Json.isStr : Json → Bool
  | .str _ => true
  | _ => false

def Json.isStrArr : Json → Bool
  | .arr xs => xs.all Json.isStr
  | _ => false

/-- The `feedback` sub-object of the AnalysisResult schema:
`verdict` a string, `pursueSkills` an array of strings, `nextSteps` a string. -/
def conformsFeedback (j : Json) : Bool :=
  match j.getField "verdict", j.getField "pursueSkills", j.getField "nextSteps" with
  | some v, some ps, some ns => v.isStr && ps.isStrArr && ns.isStr
  | _, _, _ => false

/-- The AnalysisResult schema: `score` an integer with 0 ≤ score ≤ 100,
`summary` a string, `feedback` conforming to `conformsFeedback`. -/
def conformsAnalysisResult (j : Json) : Bool :=
  match j.getField "score", j.getField "summary", j.getField "feedback" with
  | some (.num n), some s, some f =>
      decide (0 ≤ n) && decide (n ≤ 100) && s.isStr && conformsFeedback f
  | _, _, _ => false

/-- One page as seen by `page.extract_text()` in PyPDF2: either it returns
a string or `None` (modelled as `none`), or it raises. -/
inductive PageResult where
  | text : Option String → PageResult
  | exc : String → PageResult
deriving DecidableEq

def PageResult.isExc : PageResult → Bool
  | .exc _ => true
  | _ => false

/-- A stored PDF file, abstracted to what `open` + `PyPDF2.PdfReader` + page
iteration yield on it: failure to open or parse, or the list of per-page
outcomes in page order. -/
abbrev PdfFile := Except String (List PageResult)

/-- Contribution of a page to the extracted text: `page.extract_text() or ""`. -/
def pageText : PageResult → String
  | .text t => t.getD ""
  | .exc _ => ""

/-- The `for page in reader.pages` loop of `extract_text_from_pdf`,
accumulating into `text`; an exception raised by a page aborts the loop
(it is caught by the surrounding `try`, which returns the accumulated text). -/
def extractLoop (text : String) : List PageResult → String
  | [] => text
  | .text t :: rest => extractLoop (text ++ t.getD "") rest
  | .exc _ :: _ => text

/-- Model of `extract_text_from_pdf` from `main.py`: `text` starts empty; if opening
or parsing the document raises, the `except` branch only logs, and the
accumulated `text` (still empty) is returned; otherwise the page loop runs.
The function always returns a string and never raises. -/
def extract_text_from_pdf (doc : PdfFile) : String :=
  match doc with
  | .error _ => ""
  | .ok pages => extractLoop "" pages

/-- Concatenation, in page order, of the extracted text of each page. -/
def concatPages (ps : List PageResult) : String :=
  ps.foldr (fun p r => pageText p ++ r) ""

/-- Generation mode of `generate_content`: plain, or with
`response_mime_type application/json`. -/
inductive GenMode where
  | text : GenMode
  | json : GenMode
deriving DecidableEq

/-- One outbound `generate_content` invocation. -/
structure GenCall where
  mode : GenMode
  prompt : String
deriving DecidableEq

/-- The genai client, abstracted to its `generate_content` contract: a
response text, or a raised exception. -/
structure Backend where
  generate : GenMode → String → Except String String

def resumePrompt (resume_text : String) : String :=
  "Extract skills, Experience, and Education from this resume in bullet points:\n" ++ resume_text

/-- Model of `parse_resume` from `main.py`: with no client, the literal placeholder
string is returned (no call); otherwise one generate call is made and its
outcome (response text or raised error) is the result. -/
def parse_resume (client : Option Backend) (resume_text : String) : Except String String :=
  let prompt := resumePrompt resume_text
  match client with
  | none => .ok "Error: AI Client not initialized."
  | some c => c.generate .text prompt

/-- The generate calls `parse_resume` issues. -/
def parse_resume_calls (client : Option Backend) (resume_text : String) : List GenCall :=
  match client with
  | none => []
  | some _ => [⟨.text, resumePrompt resume_text⟩]

def jdPrompt (jd_text : String) : String :=
  "Extract Required Skills and Qualifications from this Job Description:\n" ++ jd_text

/-- Model of `parse_job_description` from `main.py`. -/
def parse_job_description (client : Option Backend) (jd_text : String) : Except String String :=
  let prompt := jdPrompt jd_text
  match client with
  | none => .ok "Error: AI Client not initialized."
  | some c => c.generate .text prompt

/-- The generate calls `parse_job_description` issues. -/
def parse_job_description_calls (client : Option Backend) (jd_text : String) : List GenCall :=
  match client with
  | none => []
  | some _ => [⟨.text, jdPrompt jd_text⟩]

/-- The synthesis prompt of `get_final_json_analysis` (the f-string, with
`\x7b\x7b`/`\x7d\x7d` already collapsed to literal braces). -/
def finalPrompt (parsed_resume parsed_jd : String) : String :=
  "\n    Based on the parsed Resume and Job Description below, generate a final ATS evaluation.\n    \n    Resume Info: " ++ parsed_resume ++ "\n    JD Info: " ++ parsed_jd ++ "\n\n    Return ONLY a JSON object with this structure:\n    \x7b\n      \"score\": (integer 0-100),\n      \"summary\": \"Short 2-sentence match summary\",\n      \"feedback\": \x7b\n        \"verdict\": \"A professional paragraph assessing the candidate\x27s fit\",\n        \"pursueSkills\": [\"Skill 1\", \"Skill 2\", \"Skill 3\"],\n        \"nextSteps\": \"Specific advice\"\n      \x7d\n    \x7d\n    "

/-- The canned object `get_final_json_analysis` dumps when the client is
not initialized. -/
def cannedAnalysis : Json :=
  .obj [("score", .num 0),
        ("summary", .str "AI Error: Client not connected."),
        ("feedback", .obj [("verdict", .str "Could not analyze due to server configuration error."),
                           ("pursueSkills", .arr []),
                           ("nextSteps", .str "Check server logs.")])]

/-- The `json.dumps` of the canned dict with the Python default separators
`", "` and `": "` (dict insertion order preserved), as returned by
`get_final_json_analysis` in degraded mode. -/
def cannedJsonString : String :=
  "\x7b\"score\": 0, \"summary\": \"AI Error: Client not connected.\", \"feedback\": \x7b\"verdict\": \"Could not analyze due to server configuration error.\", \"pursueSkills\": [], \"nextSteps\": \"Check server logs.\"\x7d\x7d"

/-- Model of `get_final_json_analysis` from `main.py`: with no client, the canned
JSON string is returned (no call); otherwise one JSON-mode generate call. -/
def get_final_json_analysis (client : Option Backend) (parsed_resume parsed_jd : String) :
    Except String String :=
  let prompt := finalPrompt parsed_resume parsed_jd
  match client with
  | none => .ok cannedJsonString
  | some c => c.generate .json prompt

/-- The generate calls `get_final_json_analysis` issues. -/
def get_final_json_analysis_calls (client : Option Backend) (parsed_resume parsed_jd : String) :
    List GenCall :=
  match client with
  | none => []
  | some _ => [⟨.json, finalPrompt parsed_resume parsed_jd⟩]

def UPLOAD_FOLDER : String := "uploads"

/-- Model of `os.path.join` for POSIX paths with two components, as used in the
handler (the second component is `"temp_" ++ filename`, never empty):
an absolute second component replaces the first; otherwise they are
joined with a `/` separator unless the first already ends in one. -/
def os_path_join (a b : String) : String :=
  if b.data.head? = some '/' then b
  else if a = "" || a.data.getLast? = some '/' then a ++ b
  else a ++ "/" ++ b

/-- The filesystem, as the handler sees it: a map from paths to stored files. -/
abbrev Fs := String → Option PdfFile

def fsSet (fs : Fs) (p : String) (f : PdfFile) : Fs :=
  fun q => if q = p then some f else fs q

def fsErase (fs : Fs) (p : String) : Fs :=
  fun q => if q = p then none else fs q

/-- Opening a path: a missing file raises, a present file yields its
stored outcomes. -/
def fsOpen (fs : Fs) (p : String) : PdfFile :=
  match fs p with
  | none => .error ("No such file or directory: " ++ p)
  | some f => f

def emptyFs : Fs := fun _ => none

/-- The uploaded `resume` form field: declared filename plus content
(abstracted to what extraction will see after it is saved). -/
structure UploadedFile where
  filename : String
  content : PdfFile

/-- A `/analyze` request: the optional `resume` file field and the
optional `job_description` form field. -/
structure AnalyzeRequest where
  resume : Option UploadedFile
  job_description : Option String

/-- The process environment of one request: the global client handle
(`None` if construction failed at startup), the outcome of
`resume_file.save`, and the `json.loads` contract. -/
structure Env where
  client : Option Backend
  saveResult : Except String Unit
  loads : String → Except String Json

/-- Observable outcome of the handler: HTTP status, JSON body, the final
filesystem, and the generate calls issued. -/
structure AnalyzeOutcome where
  status : Nat
  body : Json
  fs : Fs
  calls : List GenCall

def resumeRequiredBody : Json := .obj [("error", .str "Resume PDF is required")]

def jdRequiredBody : Json := .obj [("error", .str "Job description is required")]

def analysisFailedBody (msg : String) : Json :=
  .obj [("error", .str ("Analysis failed: " ++ msg))]

/-- The `/analyze` handler from `main.py`.  Field checks first (resume,
then job description); then the `try` block: save the upload under
`uploads/temp_<filename>`, extract, run the three AI stages, parse the
synthesis response, remove the temporary file, and return 200 with the
parsed data.  Any raised exception inside the `try` is caught by the
single `except` and turned into a 500 with an `Analysis failed: <msg>`
body, with the filesystem left as it was at the raise point.
The save step stores the upload at the raw joined path (`fsSet`), which
is faithful whenever that path has no intermediate components (every
filename without separators); the POSIX component-by-component resolution
of arbitrary, possibly traversal, paths is modelled separately by
`openWrite`/`saveTarget` below. -/
def analyze (env : Env) (req : AnalyzeRequest) (fs0 : Fs) : AnalyzeOutcome :=
  match req.resume with
  | none => ⟨400, resumeRequiredBody, fs0, []⟩
  | some resume_file =>
    let jd_text := req.job_description.getD ""
    if jd_text = "" then ⟨400, jdRequiredBody, fs0, []⟩
    else
      let filename := "temp_" ++ resume_file.filename
      let pdf_path := os_path_join UPLOAD_FOLDER filename
      match env.saveResult with
      | .error e => ⟨500, analysisFailedBody e, fs0, []⟩
      | .ok _ =>
        let fs1 := fsSet fs0 pdf_path resume_file.content
        let resume_text := extract_text_from_pdf (fsOpen fs1 pdf_path)
        let c1 := parse_resume_calls env.client resume_text
        match parse_resume env.client resume_text with
        | .error e => ⟨500, analysisFailedBody e, fs1, c1⟩
        | .ok parsed_resume =>
          let c2 := parse_job_description_calls env.client jd_text
          match parse_job_description env.client jd_text with
          | .error e => ⟨500, analysisFailedBody e, fs1, c1 ++ c2⟩
          | .ok parsed_jd =>
            let c3 := get_final_json_analysis_calls env.client parsed_resume parsed_jd
            match get_final_json_analysis env.client parsed_resume parsed_jd with
            | .error e => ⟨500, analysisFailedBody e, fs1, c1 ++ c2 ++ c3⟩
            | .ok final_analysis_raw =>
              match env.loads final_analysis_raw with
              | .error e => ⟨500, analysisFailedBody e, fs1, c1 ++ c2 ++ c3⟩
              | .ok final_data =>
                let fs2 := if (fs1 pdf_path).isSome then fsErase fs1 pdf_path else fs1
                ⟨200, final_data, fs2, c1 ++ c2 ++ c3⟩

/-- Lexical resolution of `.` and `..` in the segments of a relative path,
processing left to right with a stack. -/
def normSegs : List String → List String → List String
  | stack, [] => stack.reverse
  | stack, s :: rest =>
    if s = "" || s = "." then normSegs stack rest
    else if s = ".." then
      match stack with
      | [] => normSegs [".."] rest
      | t :: ts => if t = ".." then normSegs (".." :: t :: ts) rest else normSegs ts rest
    else normSegs (s :: stack) rest

/-- Segments of a path split at `/`, accumulating the characters of the
current segment in reverse. -/
def splitSlash (acc : List Char) : List Char → List String
  | [] => [String.mk acc.reverse]
  | c :: cs =>
    if c = '/' then String.mk acc.reverse :: splitSlash [] cs
    else splitSlash (c :: acc) cs

def normalizePath (p : String) : List String :=
  normSegs [] (splitSlash [] p.data)

/-- After lexical `..` resolution, does the relative path denote a
location strictly inside directory `dir`? -/
def staysUnder (dir p : String) : Bool :=
  match normalizePath p with
  | d :: rest => d = dir && !rest.isEmpty
  | [] => false

/-- Does the string contain a path separator? -/
def hasSlash (s : String) : Bool :=
  s.data.any fun c => c = '/'

/-- POSIX resolution of `open(path, "wb")` over the path segments, from
the current working directory: components are resolved left to right, and
every intermediate component must already exist as a directory in `dirs`
**before** any following `..` is applied (the kernel returns ENOENT at
the first missing component; it never resolves `..` lexically).  `..` at
an intermediate position steps to the parent; a final segment that is
empty, `.` or `..` names a directory, which cannot be opened for writing.
On success the file is created at the resolved segment list. -/
def openWrite (dirs : List (List String)) : List String → List String → Except String (List String)
  | _, [] => .error "Is a directory"
  | cur, [last] =>
    if last = "" || last = "." || last = ".." then .error "Is a directory"
    else .ok (cur ++ [last])
  | cur, seg :: rest =>
    if seg = "" || seg = "." then openWrite dirs cur rest
    else if seg = ".." then openWrite dirs cur.dropLast rest
    else if (cur ++ [seg]) ∈ dirs then openWrite dirs (cur ++ [seg]) rest
    else .error "No such file or directory"

/-- Outcome of `resume_file.save(pdf_path)` under POSIX resolution: where
(if anywhere) the kernel creates the file for the path the handler
computes from the client-supplied filename. -/
def saveTarget (dirs : List (List String)) (filename : String) : Except String (List String) :=
  openWrite dirs [] (splitSlash [] (os_path_join UPLOAD_FOLDER ("temp_" ++ filename)).data)

/-- Is a file created anywhere other than directly inside the uploads
directory?  `false` both when the open fails (nothing is written at all)
and when the file lands at `uploads/<name>`. -/
def writesOutsideUploads (dirs : List (List String)) (fn : String) : Bool :=
  match saveTarget dirs fn with
  | .error _ => false
  | .ok ["uploads", _] => false
  | .ok _ => true

/-- The reachable deployment directory state below the working directory:
`os.makedirs` creates the uploads folder at startup, and the handler only
ever creates plain files inside it, so no subdirectory of uploads exists. -/
def deployDirs : List (List String) := [["uploads"]]

/-- A deterministic stub backend answering every prompt with the text
`[1]`: valid JSON, but not of the AnalysisResult shape. -/
def arrayBackend : Backend := ⟨fun _ _ => .ok "[1]"⟩

/-- A `json.loads` stub, correct on the canned degraded-mode string and
raising on everything else. -/
def stubLoads : String → Except String Json :=
  fun s => if s = cannedJsonString then .ok cannedAnalysis
    else .error "Expecting value: line 1 column 1 (char 0)"

/-- A `json.loads` stub, correct on the string `[1]`. -/
def arrayLoads : String → Except String Json :=
  fun s => if s = "[1]" then .ok (.arr [.num 1])
    else .error "Expecting value: line 1 column 1 (char 0)"

/-- Environment after a failed client construction (credential missing at
startup): no client, working file save, correct parse of the canned string. -/
def envNoClient : Env := ⟨none, .ok (), stubLoads⟩

/-- Environment whose backend answers `[1]` to every prompt. -/
def envArray : Env := ⟨some arrayBackend, .ok (), arrayLoads⟩

/-- Environment with no client whose `resume_file.save` raises. -/
def envSaveFail : Env := ⟨none, .error "disk full", stubLoads⟩

/-- A deterministic stub backend answering every prompt with prose that
is not valid JSON (a live model can do this even in JSON mode). -/
def proseBackend : Backend := ⟨fun _ _ => .ok "I am not JSON"⟩

/-- Environment with a live backend whose synthesis response is not valid
JSON; `stubLoads` raises on it exactly as the real `json.loads` does on
text that does not start a JSON value. -/
def envNotJson : Env := ⟨some proseBackend, .ok (), stubLoads⟩

/-- A well-formed one-page uploaded resume. -/
def rfSample : UploadedFile := ⟨"r.pdf", .ok [.text (some "resume text")]⟩

/-- An uploaded file whose open or read raises once saved. -/
def rfReadFail : UploadedFile := ⟨"r.pdf", .error "Permission denied"⟩

/-- A valid request: resume present, non-empty job description. -/
def reqSample : AnalyzeRequest := ⟨some rfSample, some "a job description"⟩

/-- A valid request whose saved document cannot be read back. -/
def reqReadFail : AnalyzeRequest := ⟨some rfReadFail, some "a job description"⟩

/-- A request missing both the resume and the job description. -/
def reqBothMissing : AnalyzeRequest := ⟨none, none⟩

/-- A request missing only the resume field. -/
def reqNoResume : AnalyzeRequest := ⟨none, some "a job description"⟩

/- ===================== helper lemmas ===================== -/

theorem fsOpen_fsSet (fs : Fs) (p : String) (f : PdfFile) :
    fsOpen (fsSet fs p f) p = f := by
  simp [fsOpen, fsSet]

theorem extractLoop_append (ps : List PageResult) (acc : String) :
    extractLoop acc ps = acc ++ extractLoop "" ps := by
  induction ps generalizing acc with
  | nil => simp [extractLoop]
  | cons p rest ih =>
    cases p with
    | text t =>
      simp only [extractLoop]
      rw [String.empty_append, ih (acc ++ Option.getD t ""), ih (Option.getD t ""),
        String.append_assoc]
    | exc m => simp [extractLoop]

theorem extractLoop_concat (ps : List PageResult) (h : ∀ p ∈ ps, p.isExc = false) :
    extractLoop "" ps = concatPages ps := by
  induction ps with
  | nil => simp [extractLoop, concatPages]
  | cons p rest ih =>
    cases p with
    | text t =>
      have hrest : ∀ q ∈ rest, q.isExc = false := fun q hq => h q (List.mem_cons_of_mem _ hq)
      simp only [extractLoop]
      rw [extractLoop_append, String.empty_append, ih hrest]
      simp [concatPages, pageText]
    | exc m => exact absurd (h _ (List.mem_cons_self _ _)) (by simp [PageResult.isExc])

theorem extractLoop_partial (good rest : List PageResult) (m : String)
    (h : ∀ p ∈ good, p.isExc = false) :
    extractLoop "" (good ++ PageResult.exc m :: rest) = concatPages good := by
  induction good with
  | nil => simp [extractLoop, concatPages]
  | cons p g ih =>
    cases p with
    | text t =>
      have hg : ∀ q ∈ g, q.isExc = false := fun q hq => h q (List.mem_cons_of_mem _ hq)
      have step : extractLoop "" ((PageResult.text t :: g) ++ PageResult.exc m :: rest)
          = extractLoop (Option.getD t "") (g ++ PageResult.exc m :: rest) := rfl
      rw [step, extractLoop_append, ih hg]
      simp [concatPages, pageText]
    | exc m2 => exact absurd (h _ (List.mem_cons_self _ _)) (by simp [PageResult.isExc])

/-- Reduction of the handler on a valid request in degraded mode (client
never initialized, save succeeded): the three stages run without any
generate call, synthesis returns the canned string, and the handler
answers 200 with whatever `json.loads` makes of it. -/
theorem analyze_no_client (env : Env) (req : AnalyzeRequest) (fs : Fs)
    (rf : UploadedFile) (j : Json)
    (hclient : env.client = none) (hres : req.resume = some rf)
    (hjd : req.job_description.getD "" ≠ "") (hsave : env.saveResult = .ok ())
    (hloads : env.loads cannedJsonString = .ok j) :
    analyze env req fs =
      ⟨200, j,
        fsErase (fsSet fs (os_path_join UPLOAD_FOLDER ("temp_" ++ rf.filename)) rf.content)
          (os_path_join UPLOAD_FOLDER ("temp_" ++ rf.filename)), []⟩ := by
  have hp : fsSet fs (os_path_join UPLOAD_FOLDER ("temp_" ++ rf.filename)) rf.content
      (os_path_join UPLOAD_FOLDER ("temp_" ++ rf.filename)) = some rf.content := by
    simp [fsSet]
  simp only [analyze, hres, hclient, hsave, hloads, fsOpen_fsSet,
    parse_resume, parse_job_description, get_final_json_analysis,
    parse_resume_calls, parse_job_description_calls, get_final_json_analysis_calls,
    hjd, if_neg, hp, Option.isSome_some, if_true, if_false, List.nil_append,
    List.append_nil]

/- ===================== claim theorems ===================== -/

/-- C6 (confirmed): the extractor returns the concatenation, in page
order, of the extracted text of each page, contributing `""` for a page that
yields no text; a document that cannot be opened or parsed at all yields
`""`.  The function is total and `Except`-free, so extraction never
raises to its caller: downstream stages always receive a plain string. -/
theorem c6_extractor_contract :
    (∀ msg, extract_text_from_pdf (.error msg) = "") ∧
    (∀ pages, (∀ p ∈ pages, p.isExc = false) →
      extract_text_from_pdf (.ok pages) = concatPages pages) := by
  constructor
  · intro msg; rfl
  · intro pages h
    simpa [extract_text_from_pdf] using extractLoop_concat pages h

/-- Witness for C6: a three-page document where one page yields `None`,
and an unreadable document. -/
theorem c6_extractor_contract_witness :
    extract_text_from_pdf (.ok [.text (some "ab"), .text none, .text (some "c")])
      = concatPages [.text (some "ab"), .text none, .text (some "c")] ∧
    concatPages [.text (some "ab"), .text none, .text (some "c")] = "abc" ∧
    extract_text_from_pdf (.error "EOF marker not found") = "" :=
  ⟨c6_extractor_contract.2 _ (by decide), rfl, c6_extractor_contract.1 _⟩

/-- C10 (amended): if page iteration raises partway through, the
extractor returns the text accumulated from the pages before the failing
one — which may be the empty string when those pages contributed no text
— and signals no error to its caller. -/
theorem c10_partial_extraction (good rest : List PageResult) (m : String)
    (h : ∀ p ∈ good, p.isExc = false) :
    extract_text_from_pdf (.ok (good ++ PageResult.exc m :: rest)) = concatPages good := by
  simpa [extract_text_from_pdf] using extractLoop_partial good rest m h

/-- Witness for C10: the second page raises after a first page with text. -/
theorem c10_partial_extraction_witness :
    extract_text_from_pdf (.ok [.text (some "ab"), .exc "boom", .text (some "zz")])
      = concatPages [.text (some "ab")] ∧
    concatPages [PageResult.text (some "ab")] = "ab" :=
  ⟨c10_partial_extraction [.text (some "ab")] [.text (some "zz")] "boom" (by decide), rfl⟩

/-- C10 counterexample: the first page is read but `extract_text` returns
`None`, the second page raises.  Some pages were already read, yet the
extractor returns the empty string — refuting the assertion of the claim that
the partial result is "a non-empty string, not the empty string". -/
theorem c10_counterexample :
    extract_text_from_pdf (.ok [PageResult.text none, PageResult.exc "boom"]) = "" := rfl

/-- C7 (confirmed): with an uninitialized client, both parse stages
return exactly the literal `"Error: AI Client not initialized."` and
issue no generate call; and the pipeline continues to synthesis rather
than aborting: a valid request with save and JSON-parse working still
ends in a 200, not in the 500 branch. -/
theorem c7_placeholder_stages :
    (∀ t, parse_resume none t = .ok "Error: AI Client not initialized."
        ∧ parse_resume_calls none t = []) ∧
    (∀ t, parse_job_description none t = .ok "Error: AI Client not initialized."
        ∧ parse_job_description_calls none t = []) ∧
    (∀ (env : Env) (req : AnalyzeRequest) (fs : Fs) (rf : UploadedFile) (j : Json),
      env.client = none → req.resume = some rf → req.job_description.getD "" ≠ "" →
      env.saveResult = .ok () → env.loads cannedJsonString = .ok j →
      (analyze env req fs).status = 200) := by
  refine ⟨fun t => ⟨rfl, rfl⟩, fun t => ⟨rfl, rfl⟩, ?_⟩
  intro env req fs rf j hclient hres hjd hsave hloads
  rw [analyze_no_client env req fs rf j hclient hres hjd hsave hloads]

/-- Witness for C7 at a concrete input text and a concrete degraded
environment. -/
theorem c7_placeholder_stages_witness :
    parse_resume none "some resume text" = .ok "Error: AI Client not initialized." ∧
    parse_job_description none "some jd text" = .ok "Error: AI Client not initialized." ∧
    (analyze envNoClient reqSample emptyFs).status = 200 :=
  ⟨(c7_placeholder_stages.1 "some resume text").1,
   (c7_placeholder_stages.2.1 "some jd text").1,
   c7_placeholder_stages.2.2 envNoClient reqSample emptyFs rfSample cannedAnalysis
     rfl rfl (by decide) rfl (by simp [envNoClient, stubLoads])⟩

/-- C2 (confirmed): if the client was never initialized, every valid
request (with working file save and `json.loads` honouring its contract
on the canned string) returns HTTP 200 with the canned schema-conforming
body: `score = 0`, a summary naming the configuration error, and no
network call is made at any stage. -/
theorem c2_degraded_mode (env : Env) (req : AnalyzeRequest) (fs : Fs)
    (rf : UploadedFile)
    (hclient : env.client = none) (hres : req.resume = some rf)
    (hjd : req.job_description.getD "" ≠ "") (hsave : env.saveResult = .ok ())
    (hloads : env.loads cannedJsonString = .ok cannedAnalysis) :
    (analyze env req fs).status = 200 ∧
    (analyze env req fs).body = cannedAnalysis ∧
    (analyze env req fs).calls = [] ∧
    cannedAnalysis.getField "score" = some (.num 0) ∧
    cannedAnalysis.getField "summary" = some (.str "AI Error: Client not connected.") ∧
    conformsAnalysisResult cannedAnalysis = true := by
  rw [analyze_no_client env req fs rf cannedAnalysis hclient hres hjd hsave hloads]
  exact ⟨rfl, rfl, rfl, rfl, rfl, rfl⟩

/-- Witness for C2 at a concrete valid request in the degraded
environment. -/
theorem c2_degraded_mode_witness :
    (analyze envNoClient reqSample emptyFs).status = 200 ∧
    (analyze envNoClient reqSample emptyFs).body = cannedAnalysis ∧
    (analyze envNoClient reqSample emptyFs).calls = [] ∧
    cannedAnalysis.getField "score" = some (.num 0) ∧
    cannedAnalysis.getField "summary" = some (.str "AI Error: Client not connected.") ∧
    conformsAnalysisResult cannedAnalysis = true :=
  c2_degraded_mode envNoClient reqSample emptyFs rfSample rfl rfl (by decide) rfl
    (by simp [envNoClient, stubLoads])

/-- C5 (amended): a request without the resume field is rejected with 400
`Resume PDF is required`; a request **with** the resume field whose job
description is absent or empty is rejected with 400 `Job description is
required`.  In both cases the outcome equals the 400 response with the
filesystem unchanged and no generate call — the request is rejected
before any pipeline work. -/
theorem c5_input_validation (env : Env) (req : AnalyzeRequest) (fs : Fs) :
    (req.resume = none → analyze env req fs = ⟨400, resumeRequiredBody, fs, []⟩) ∧
    (∀ rf, req.resume = some rf → req.job_description.getD "" = "" →
      analyze env req fs = ⟨400, jdRequiredBody, fs, []⟩) := by
  constructor
  · intro h; simp [analyze, h]
  · intro rf h hjd; simp [analyze, h, hjd]

/-- Witness for C5: a request missing the resume, and one with an empty
job description. -/
theorem c5_input_validation_witness :
    analyze envNoClient reqNoResume emptyFs = ⟨400, resumeRequiredBody, emptyFs, []⟩ ∧
    analyze envNoClient ⟨some rfSample, some ""⟩ emptyFs = ⟨400, jdRequiredBody, emptyFs, []⟩ :=
  ⟨(c5_input_validation envNoClient reqNoResume emptyFs).1 rfl,
   (c5_input_validation envNoClient ⟨some rfSample, some ""⟩ emptyFs).2 rfSample rfl rfl⟩

/-- C5 counterexample: a request missing **both** fields has an absent
job description, yet the handler returns the resume error, not the
job-description error — the resume check takes priority, refuting the
unconditional second clause of the claim. -/
theorem c5_counterexample :
    (analyze envNoClient reqBothMissing emptyFs).status = 400 ∧
    (analyze envNoClient reqBothMissing emptyFs).body = resumeRequiredBody ∧
    resumeRequiredBody ≠ jdRequiredBody := by
  refine ⟨rfl, rfl, ?_⟩
  simp [resumeRequiredBody, jdRequiredBody]

/-- Reduction of the handler on a valid request when every stage
succeeds: the response is 200 with exactly the JSON parsed from the
synthesis response. -/
theorem analyze_success (env : Env) (req : AnalyzeRequest) (fs : Fs)
    (rf : UploadedFile) (jd pr pj raw : String) (j : Json)
    (hres : req.resume = some rf) (hjd : req.job_description = some jd) (hjdne : jd ≠ "")
    (hsave : env.saveResult = .ok ())
    (hpr : parse_resume env.client (extract_text_from_pdf rf.content) = .ok pr)
    (hpj : parse_job_description env.client jd = .ok pj)
    (hfin : get_final_json_analysis env.client pr pj = .ok raw)
    (hloads : env.loads raw = .ok j) :
    (analyze env req fs).status = 200 ∧ (analyze env req fs).body = j := by
  constructor <;>
    simp only [analyze, hres, hjd, Option.getD_some, hjdne, if_neg, if_false,
      hsave, fsOpen_fsSet, hpr, hpj, hfin, hloads]

/-- Each stage issues at most one generate call. -/
theorem parse_resume_calls_le (c : Option Backend) (t : String) :
    (parse_resume_calls c t).length ≤ 1 := by
  cases c <;> simp [parse_resume_calls]

theorem parse_job_description_calls_le (c : Option Backend) (t : String) :
    (parse_job_description_calls c t).length ≤ 1 := by
  cases c <;> simp [parse_job_description_calls]

theorem get_final_json_analysis_calls_le (c : Option Backend) (a b : String) :
    (get_final_json_analysis_calls c a b).length ≤ 1 := by
  cases c <;> simp [get_final_json_analysis_calls]

/-- A request makes at most three generate calls in total: one per stage,
none retried. -/
theorem analyze_calls_le (env : Env) (req : AnalyzeRequest) (fs : Fs) :
    (analyze env req fs).calls.length ≤ 3 := by
  unfold analyze
  cases req.resume with
  | none => simp
  | some rf =>
    by_cases hjd : req.job_description.getD "" = ""
    · simp [hjd]
    · simp only [hjd, if_neg, if_false, fsOpen_fsSet]
      cases hs : env.saveResult with
      | error e => simp [hs]
      | ok u =>
        have h1 := parse_resume_calls_le env.client (extract_text_from_pdf rf.content)
        have h2 := parse_job_description_calls_le env.client (req.job_description.getD "")
        cases hpr : parse_resume env.client (extract_text_from_pdf rf.content) with
        | error e => simp only [hpr]; simpa using h1.trans (by norm_num)
        | ok pr =>
          cases hpj : parse_job_description env.client (req.job_description.getD "") with
          | error e =>
            simp only [hpr, hpj, List.length_append]
            omega
          | ok pj =>
            have h3 := get_final_json_analysis_calls_le env.client pr pj
            cases hfin : get_final_json_analysis env.client pr pj with
            | error e =>
              simp only [hpr, hpj, hfin, List.length_append]
              omega
            | ok raw =>
              cases hl : env.loads raw with
              | error e =>
                simp only [hpr, hpj, hfin, hl, List.length_append]
                omega
              | ok j =>
                simp only [hpr, hpj, hfin, hl, List.length_append]
                omega

/-- C1 (amended): on a valid request, when the synthesis response parses
as JSON `j`, the handler returns 200 with body exactly `j`, performing no
schema validation: the 200 body conforms to the AnalysisResult schema
exactly when the JSON of the backend does. -/
theorem c1_schema_passthrough (env : Env) (req : AnalyzeRequest) (fs : Fs)
    (rf : UploadedFile) (jd pr pj raw : String) (j : Json)
    (hres : req.resume = some rf) (hjd : req.job_description = some jd) (hjdne : jd ≠ "")
    (hsave : env.saveResult = .ok ())
    (hpr : parse_resume env.client (extract_text_from_pdf rf.content) = .ok pr)
    (hpj : parse_job_description env.client jd = .ok pj)
    (hfin : get_final_json_analysis env.client pr pj = .ok raw)
    (hloads : env.loads raw = .ok j) :
    (analyze env req fs).status = 200 ∧ (analyze env req fs).body = j ∧
    conformsAnalysisResult (analyze env req fs).body = conformsAnalysisResult j := by
  obtain ⟨h1, h2⟩ :=
    analyze_success env req fs rf jd pr pj raw j hres hjd hjdne hsave hpr hpj hfin hloads
  exact ⟨h1, h2, by rw [h2]⟩

/-- Witness for C1 (amended) at a concrete healthy environment: the stub
backend answers `[1]`, the handler returns 200 with body `[1]`. -/
theorem c1_schema_passthrough_witness :
    (analyze envArray reqSample emptyFs).status = 200 ∧
    (analyze envArray reqSample emptyFs).body = .arr [.num 1] ∧
    conformsAnalysisResult (analyze envArray reqSample emptyFs).body
      = conformsAnalysisResult (.arr [.num 1]) :=
  c1_schema_passthrough envArray reqSample emptyFs rfSample "a job description"
    "[1]" "[1]" "[1]" (.arr [.num 1]) rfl rfl (by decide) rfl rfl rfl rfl
    (by simp [envArray, arrayLoads])

/-- C1 counterexample: a valid request against a reachable backend whose
(valid-JSON) synthesis response is `[1]` yields HTTP 200 with a body that
does **not** conform to the AnalysisResult schema — the handler does
return 200 with a body outside the shape. -/
theorem c1_counterexample :
    (analyze envArray reqSample emptyFs).status = 200 ∧
    (analyze envArray reqSample emptyFs).body = .arr [.num 1] ∧
    conformsAnalysisResult (analyze envArray reqSample emptyFs).body = false :=
  ⟨rfl, rfl, rfl⟩

/-- C3 (amended): on a valid request, an exception raised while saving
the document, during any live generation call, or during final JSON
parsing is caught once at the handler boundary and converted into a 500
whose body is exactly `error: Analysis failed: <message>` with the
underlying error string; at most one generate call is made per stage
(nothing is retried).  Exceptions while opening or reading the saved
document never reach the boundary (see the counterexample). -/
theorem c3_error_boundary (env : Env) (req : AnalyzeRequest) (fs : Fs)
    (rf : UploadedFile) (jd : String)
    (hres : req.resume = some rf) (hjd : req.job_description = some jd) (hjdne : jd ≠ "") :
    (∀ e, env.saveResult = .error e →
      (analyze env req fs).status = 500 ∧
      (analyze env req fs).body = analysisFailedBody e) ∧
    (∀ e, env.saveResult = .ok () →
      parse_resume env.client (extract_text_from_pdf rf.content) = .error e →
      (analyze env req fs).status = 500 ∧
      (analyze env req fs).body = analysisFailedBody e) ∧
    (∀ pr e, env.saveResult = .ok () →
      parse_resume env.client (extract_text_from_pdf rf.content) = .ok pr →
      parse_job_description env.client jd = .error e →
      (analyze env req fs).status = 500 ∧
      (analyze env req fs).body = analysisFailedBody e) ∧
    (∀ pr pj e, env.saveResult = .ok () →
      parse_resume env.client (extract_text_from_pdf rf.content) = .ok pr →
      parse_job_description env.client jd = .ok pj →
      get_final_json_analysis env.client pr pj = .error e →
      (analyze env req fs).status = 500 ∧
      (analyze env req fs).body = analysisFailedBody e) ∧
    (∀ pr pj raw e, env.saveResult = .ok () →
      parse_resume env.client (extract_text_from_pdf rf.content) = .ok pr →
      parse_job_description env.client jd = .ok pj →
      get_final_json_analysis env.client pr pj = .ok raw →
      env.loads raw = .error e →
      (analyze env req fs).status = 500 ∧
      (analyze env req fs).body = analysisFailedBody e) ∧
    (analyze env req fs).calls.length ≤ 3 := by
  refine ⟨?_, ?_, ?_, ?_, ?_, analyze_calls_le env req fs⟩
  · intro e he
    constructor <;>
      simp only [analyze, hres, hjd, Option.getD_some, hjdne, if_neg, if_false, he]
  · intro e hs hpr
    constructor <;>
      simp only [analyze, hres, hjd, Option.getD_some, hjdne, if_neg, if_false, hs,
        fsOpen_fsSet, hpr]
  · intro pr e hs hpr hpj
    constructor <;>
      simp only [analyze, hres, hjd, Option.getD_some, hjdne, if_neg, if_false, hs,
        fsOpen_fsSet, hpr, hpj]
  · intro pr pj e hs hpr hpj hfin
    constructor <;>
      simp only [analyze, hres, hjd, Option.getD_some, hjdne, if_neg, if_false, hs,
        fsOpen_fsSet, hpr, hpj, hfin]
  · intro pr pj raw e hs hpr hpj hfin hloads
    constructor <;>
      simp only [analyze, hres, hjd, Option.getD_some, hjdne, if_neg, if_false, hs,
        fsOpen_fsSet, hpr, hpj, hfin, hloads]

/-- Witness for C3: `resume_file.save` raising `disk full` yields 500
with the message embedded. -/
theorem c3_error_boundary_witness :
    (analyze envSaveFail reqSample emptyFs).status = 500 ∧
    (analyze envSaveFail reqSample emptyFs).body = analysisFailedBody "disk full" :=
  (c3_error_boundary envSaveFail reqSample emptyFs rfSample "a job description"
    rfl rfl (by decide)).1 "disk full" rfl

/-- C3 counterexample: an exception raised while opening/reading the
saved document (`Permission denied`) is **not** converted into a 500 at
the handler boundary: it is swallowed inside `extract_text_from_pdf`,
the pipeline proceeds on empty text, and the request ends in a 200. -/
theorem c3_counterexample :
    (analyze envNoClient reqReadFail emptyFs).status = 200 ∧
    (analyze envNoClient reqReadFail emptyFs).status ≠ 500 ∧
    (analyze envNoClient reqReadFail emptyFs).body = cannedAnalysis :=
  ⟨rfl, by decide, rfl⟩

/-- C4 (amended): the temporary file is removed only on the success path
(when synthesis and final JSON parsing succeed, just before the 200
response); when a stage after the save raises and the request ends in the
500 branch, the `except` handler returns without removing it, so the file
is still present in the final filesystem. -/
theorem c4_cleanup (env : Env) (req : AnalyzeRequest) (fs : Fs) (rf : UploadedFile)
    (hres : req.resume = some rf) :
    ((analyze env req fs).status = 200 →
      (analyze env req fs).fs (os_path_join UPLOAD_FOLDER ("temp_" ++ rf.filename)) = none) ∧
    (env.saveResult = .ok () → (analyze env req fs).status = 500 →
      (analyze env req fs).fs (os_path_join UPLOAD_FOLDER ("temp_" ++ rf.filename))
        = some rf.content) := by
  have hp : fsSet fs (os_path_join UPLOAD_FOLDER ("temp_" ++ rf.filename)) rf.content
      (os_path_join UPLOAD_FOLDER ("temp_" ++ rf.filename)) = some rf.content := by
    simp [fsSet]
  have hq : fsErase (fsSet fs (os_path_join UPLOAD_FOLDER ("temp_" ++ rf.filename)) rf.content)
      (os_path_join UPLOAD_FOLDER ("temp_" ++ rf.filename))
      (os_path_join UPLOAD_FOLDER ("temp_" ++ rf.filename)) = none := by
    simp [fsErase]
  unfold analyze
  rw [hres]
  simp only [fsOpen_fsSet]
  by_cases hjd : req.job_description.getD "" = ""
  · simp [hjd]
  · simp only [hjd, if_neg, if_false]
    cases hs : env.saveResult with
    | error e => simp [hs]
    | ok u =>
      cases hpr : parse_resume env.client (extract_text_from_pdf rf.content) with
      | error e => constructor <;> simp [hs, hpr, hp]
      | ok pr =>
        cases hpj : parse_job_description env.client (req.job_description.getD "") with
        | error e => constructor <;> simp [hs, hpr, hpj, hp]
        | ok pj =>
          cases hfin : get_final_json_analysis env.client pr pj with
          | error e => constructor <;> simp [hs, hpr, hpj, hfin, hp]
          | ok raw =>
            cases hl : env.loads raw with
            | error e => constructor <;> simp [hs, hpr, hpj, hfin, hl, hp]
            | ok j => constructor <;> simp [hs, hpr, hpj, hfin, hl, hp, hq]

/-- Witness for C4 (amended) on the success path: the temporary file is
gone from the final filesystem. -/
theorem c4_cleanup_witness :
    (analyze envNoClient reqSample emptyFs).fs
      (os_path_join UPLOAD_FOLDER ("temp_" ++ rfSample.filename)) = none :=
  (c4_cleanup envNoClient reqSample emptyFs rfSample rfl).1 rfl

/-- C4 counterexample: a live backend whose synthesis response is the
text `I am not JSON` makes `json.loads` raise (as the real library does
on text that does not start a JSON value), the request ends in the 500
branch, and the temporary file is **not** removed — it is still present
in the final filesystem, refuting removal "regardless of the pipeline
outcome". -/
theorem c4_counterexample :
    (analyze envNotJson reqSample emptyFs).status = 500 ∧
    (analyze envNotJson reqSample emptyFs).fs
      (os_path_join UPLOAD_FOLDER ("temp_" ++ rfSample.filename)) = some rfSample.content ∧
    some rfSample.content ≠ (none : Option PdfFile) :=
  ⟨rfl, rfl, by simp⟩

/-- Responses are independent of the pre-existing filesystem: the only
state the pipeline reads back (the saved upload) is written by the
request itself. -/
theorem analyze_fs_irrel (env : Env) (req : AnalyzeRequest) (fs fs2 : Fs) :
    (analyze env req fs).status = (analyze env req fs2).status ∧
    (analyze env req fs).body = (analyze env req fs2).body ∧
    (analyze env req fs).calls = (analyze env req fs2).calls := by
  unfold analyze
  cases req.resume with
  | none => exact ⟨rfl, rfl, rfl⟩
  | some rf =>
    by_cases hjd : req.job_description.getD "" = ""
    · simp [hjd]
    · simp only [hjd, if_neg, if_false, fsOpen_fsSet]
      cases hs : env.saveResult with
      | error e => simp [hs]
      | ok u =>
        cases hpr : parse_resume env.client (extract_text_from_pdf rf.content) with
        | error e => simp [hs, hpr]
        | ok pr =>
          cases hpj : parse_job_description env.client (req.job_description.getD "") with
          | error e => simp [hs, hpr, hpj]
          | ok pj =>
            cases hfin : get_final_json_analysis env.client pr pj with
            | error e => simp [hs, hpr, hpj, hfin]
            | ok raw =>
              cases hl : env.loads raw with
              | error e => simp [hs, hpr, hpj, hfin, hl]
              | ok j => simp [hs, hpr, hpj, hfin, hl]

/-- C8 (confirmed): the pipeline reads no hidden state that persists
across calls — against a fixed deterministic environment (stub backend),
the response (status, body, generate calls) does not depend on the
pre-existing filesystem, and re-submitting the identical request on the
filesystem left behind by the first run yields the identical
AnalysisResult body. -/
theorem c8_idempotence (env : Env) (req : AnalyzeRequest) (fs fs2 : Fs) :
    ((analyze env req fs).status = (analyze env req fs2).status ∧
     (analyze env req fs).body = (analyze env req fs2).body ∧
     (analyze env req fs).calls = (analyze env req fs2).calls) ∧
    (analyze env req ((analyze env req fs).fs)).body = (analyze env req fs).body :=
  ⟨analyze_fs_irrel env req fs fs2,
   (analyze_fs_irrel env req ((analyze env req fs).fs) fs).2.1⟩

/-- Head shape of `splitSlash`: the first produced segment always begins
with the reversed accumulator. -/
theorem splitSlash_shape (cs : List Char) : ∀ acc, ∃ s rest,
    splitSlash acc cs = String.mk (acc.reverse ++ s) :: rest := by
  induction cs with
  | nil =>
    intro acc
    exact ⟨[], [], by simp [splitSlash]⟩
  | cons c cs ih =>
    intro acc
    by_cases hc : c = '/'
    · exact ⟨[], splitSlash [] cs, by simp [splitSlash, hc]⟩
    · obtain ⟨s, rest, hsr⟩ := ih (c :: acc)
      refine ⟨c :: s, rest, ?_⟩
      simp only [splitSlash, hc, if_neg, if_false, hsr, List.reverse_cons,
        List.append_assoc, List.singleton_append]

/-- On a separator-free character list, `splitSlash` yields a single
segment: the reversed accumulator followed by the whole list. -/
theorem splitSlash_no_slash (cs : List Char) : ∀ acc, (∀ c ∈ cs, c ≠ '/') →
    splitSlash acc cs = [String.mk (acc.reverse ++ cs)] := by
  induction cs with
  | nil =>
    intro acc h
    simp [splitSlash]
  | cons c cs ih =>
    intro acc h
    have hc : c ≠ '/' := h c (List.mem_cons_self _ _)
    have hcs : ∀ x ∈ cs, x ≠ '/' := fun x hx => h x (List.mem_cons_of_mem _ hx)
    simp only [splitSlash, hc, if_neg, if_false, ih (c :: acc) hcs, List.reverse_cons,
      List.append_assoc, List.singleton_append]

/-- No client-supplied filename makes the save create a file outside the
uploads directory: the segment following `uploads/` always begins with
`temp_`, so for a filename with separators the kernel fails with ENOENT
at the nonexistent `uploads/temp_<prefix>` directory before any `..` is
applied, and for a separator-free filename the file lands directly inside
uploads. -/
theorem no_escape_aux (fn : String) :
    writesOutsideUploads deployDirs fn = false := by
  have h1 : splitSlash [] ((os_path_join UPLOAD_FOLDER ("temp_" ++ fn)).data)
      = "uploads" :: splitSlash ['_', 'p', 'm', 'e', 't'] fn.data := rfl
  obtain ⟨s, rest, hsr⟩ := splitSlash_shape fn.data ['_', 'p', 'm', 'e', 't']
  unfold writesOutsideUploads saveTarget
  rw [h1, hsr]
  cases rest with
  | nil => rfl
  | cons r rs => rfl

/-- A separator-free filename is stored as the plain file
`uploads/temp_<filename>`. -/
theorem saveTarget_no_slash (fn : String) (h : hasSlash fn = false) :
    saveTarget deployDirs fn = .ok ["uploads", "temp_" ++ fn] := by
  have hcs : ∀ c ∈ fn.data, c ≠ '/' := by
    intro c hc hceq
    have : fn.data.any (fun c => c = '/') = true :=
      List.any_eq_true.mpr ⟨c, hc, by simp [hceq]⟩
    rw [hasSlash] at h
    rw [this] at h
    exact Bool.noConfusion h
  have h1 : splitSlash [] ((os_path_join UPLOAD_FOLDER ("temp_" ++ fn)).data)
      = "uploads" :: splitSlash ['_', 'p', 'm', 'e', 't'] fn.data := rfl
  unfold saveTarget
  rw [h1, splitSlash_no_slash fn.data _ hcs]
  rfl

/-- A separator-free filename also stays under uploads lexically. -/
theorem staysUnder_no_slash (fn : String) (h : hasSlash fn = false) :
    staysUnder UPLOAD_FOLDER (os_path_join UPLOAD_FOLDER ("temp_" ++ fn)) = true := by
  have hcs : ∀ c ∈ fn.data, c ≠ '/' := by
    intro c hc hceq
    have : fn.data.any (fun c => c = '/') = true :=
      List.any_eq_true.mpr ⟨c, hc, by simp [hceq]⟩
    rw [hasSlash] at h
    rw [this] at h
    exact Bool.noConfusion h
  have h1 : splitSlash [] ((os_path_join UPLOAD_FOLDER ("temp_" ++ fn)).data)
      = "uploads" :: splitSlash ['_', 'p', 'm', 'e', 't'] fn.data := rfl
  unfold staysUnder normalizePath
  rw [h1, splitSlash_no_slash fn.data _ hcs]
  rfl

/-- C9 (amended): the temporary path is the raw join of the uploads
directory with `"temp_"` prefixed to the client-supplied filename, with
no sanitization — for the filename `a/../../x` the computed path resolves
lexically outside the uploads directory.  Nevertheless the document is
never written outside uploads: under POSIX resolution with the reachable
deployment state (uploads exists, with no subdirectories), the save on
such a traversal path fails with ENOENT at the nonexistent
`uploads/temp_a` component (the request ends 500 with nothing written),
while every separator-free filename creates the file directly inside
uploads. -/
theorem c9_no_escape :
    (∃ fn : String,
      staysUnder UPLOAD_FOLDER (os_path_join UPLOAD_FOLDER ("temp_" ++ fn)) = false ∧
      saveTarget deployDirs fn = .error "No such file or directory") ∧
    (∀ fn : String, hasSlash fn = false →
      saveTarget deployDirs fn = .ok ["uploads", "temp_" ++ fn] ∧
      staysUnder UPLOAD_FOLDER (os_path_join UPLOAD_FOLDER ("temp_" ++ fn)) = true) ∧
    (∀ fn : String, writesOutsideUploads deployDirs fn = false) :=
  ⟨⟨"a/../../x", by decide, rfl⟩,
   fun fn h => ⟨saveTarget_no_slash fn h, staysUnder_no_slash fn h⟩,
   no_escape_aux⟩

/-- Witness for C9 (amended) at a concrete ordinary filename. -/
theorem c9_no_escape_witness :
    saveTarget deployDirs "resume.pdf" = .ok ["uploads", "temp_" ++ "resume.pdf"] ∧
    staysUnder UPLOAD_FOLDER (os_path_join UPLOAD_FOLDER ("temp_" ++ "resume.pdf")) = true :=
  c9_no_escape.2.1 "resume.pdf" rfl

/-- C9 counterexample: the negation of the claimed escape — there is no
client-supplied filename for which the uploaded document is written to a
location outside the uploads directory, because the `temp_` prefix makes
the first component below uploads a directory that never exists, so POSIX
open fails before any `..` traversal takes effect. -/
theorem c9_counterexample :
    ¬ ∃ fn : String, writesOutsideUploads deployDirs fn = true := by
  rintro ⟨fn, h⟩
  rw [no_escape_aux fn] at h
  exact Bool.noConfusion h

end ATS
